import Mathlib

/-!
Verification of the QMGrid view-synchronization engine.

The definitions below are a shallow embedding of the QMGrid data-table
library (vanilla JavaScript, one `QMGrid` class).  Pure helpers
(`getCellValue`, the filter predicate of `applyFilters`, the sort
comparator, `debounce`, `emit`) become Lean functions; the stateful parts
become explicit state-passing functions over record types:

* `Local` models the client-side ("local") mode: `search`, `sort`,
  `goToPage`, `setPageSize`, `removeRow` acting on an `LState`.
* `Remote` models the server-side ("remote") mode as a small-step system:
  `loadServerData` is split at its suspension point into the synchronous
  prefix `startLoad` (up to dispatching the fetch) and the resumption
  `resume` (from the fetch settling through the `finally` block); user
  mutations, transport completions and retry-timer fires are the actions
  of a step relation.

JavaScript numbers are modelled as `ℚ` where fractional values are
observable (page sizes), `Int` where the code only ever produces integers
(pages, counts, tokens), and strings as Lean `String` with ASCII-level
`toLowerCase`.  `NaN` and non-number inputs guarded by `typeof` checks
are noted where elided.
-/

/-- JS `String.prototype.toLowerCase` as used by the library (per-character lowering). -/
def strLower (s : String) : String := String.mk (s.data.map Char.toLower)

/-- JS `String.prototype.includes`: substring containment. -/
def strIncludes (hay needle : String) : Bool :=
  hay.data.tails.any fun t => needle.data.isPrefixOf t

/-- JS `String.prototype.split` on a single separator character (`key.split('.')`). -/
def splitChar (c : Char) : List Char → List (List Char)
  | [] => [[]]
  | x :: xs =>
    let r := splitChar c xs
    if x = c then [] :: r
    else
      match r with
      | [] => [[x]]
      | h :: t => (x :: h) :: t

mutual
/-- A JavaScript value, as far as the library observes them. -/
inductive JSValue where
  | null
  | undefV
  | bool (b : Bool)
  | num (n : Int)
  | str (s : String)
  | obj (fields : JSFields)
deriving DecidableEq, Repr

/-- The field list of a JS object. -/
inductive JSFields where
  | nil
  | cons (key : String) (value : JSValue) (rest : JSFields)
deriving DecidableEq, Repr
end

/-- Build an object field list from an association list (for concrete rows). -/
def JSFields.ofList : List (String × JSValue) → JSFields
  | [] => .nil
  | (k, v) :: rest => .cons k v (JSFields.ofList rest)

/-- First field with the given key, if any. -/
def JSFields.find : JSFields → String → Option JSValue
  | .nil, _ => none
  | .cons k v rest, key => if k = key then some v else rest.find key

/-- JS truthiness (`value &&` / `if (value)`). -/
def JSValue.truthy : JSValue → Bool
  | .null => false
  | .undefV => false
  | .bool b => b
  | .num n => n != 0
  | .str s => !s.data.isEmpty
  | .obj _ => true

/-- JS `value.toString()` / string coercion for the values above. -/
def JSValue.toStr : JSValue → String
  | .null => "null"
  | .undefV => "undefined"
  | .bool b => if b then "true" else "false"
  | .num n => toString n
  | .str s => s
  | .obj _ => "[object Object]"

/-- JS property read `obj[prop]`: `undefined` when the property is absent or the
    receiver is not an object (primitive wrapper properties are not modelled). -/
def JSValue.index : JSValue → String → JSValue
  | .obj fs, k =>
    match fs.find k with
    | some v => v
    | none => .undefV
  | _, _ => .undefV

/-- Test for the JS `undefined` value. -/
def JSValue.isUndefV : JSValue → Bool
  | .undefV => true
  | _ => false

/-- A data row: a JS object. -/
abbrev Row := JSFields

/-- `getCellValue` (part_003:639-656): nested dot-notation lookup; missing /
    `undefined` / `null` resolve to `''`.  The dotted path is reduced with
    `obj && obj[prop] !== undefined ? obj[prop] : ''`. -/
def getCellValue (row : Row) (key : String) : JSValue :=
  if key = "" then .str ""
  else if key.data.any (fun c => c = '.') then
    ((splitChar '.' key.data).map String.mk).foldl
      (fun obj prop =>
        if obj.truthy && !(obj.index prop).isUndefV then obj.index prop else .str "")
      (.obj row)
  else
    match (JSValue.obj row).index key with
    | .undefV => .str ""
    | .null => .str ""
    | v => v

/-- A configured column.  Only the data key matters to the engine; title,
    width, renderers and the `sortable` flag affect rendering only.  There is
    no per-column searchable flag in the source. -/
structure Column where
  key : String
deriving DecidableEq, Repr

/-- The filter predicate inside `applyFilters` (part_003:952-961): with a
    non-empty (already lowercased) search term, a row is kept iff some
    configured column's cell value is truthy and its string projection,
    lowercased, contains the term. -/
def rowMatchesSearch (columns : List Column) (searchTerm : String) (row : Row) : Bool :=
  if searchTerm = "" then true
  else columns.any fun column =>
    let value := getCellValue row column.key
    value.truthy && strIncludes (strLower value.toStr) searchTerm

/-- `applyFilters` (part_003:952-961), as a function of the inputs it reads. -/
def applyFilters (columns : List Column) (searchTerm : String) (originalData : List Row) :
    List Row :=
  originalData.filter (rowMatchesSearch columns searchTerm)

/-- Decimal-digit accumulator for `parseNum`. -/
def digitsVal (l : List Char) : Option Nat :=
  l.foldl
    (fun acc c =>
      match acc with
      | none => none
      | some a => if c.isDigit then some (a * 10 + (c.toNat - '0'.toNat)) else none)
    (some 0)

/-- JS `Number(string)` coercion restricted to integral literals (`''` is 0,
    non-numeric is NaN = `none`; fractional literals are not produced by the
    integer-valued rows modelled here). -/
def parseNum (s : String) : Option Int :=
  match s.data with
  | [] => some 0
  | '-' :: rest => if rest.isEmpty then none else (digitsVal rest).map (fun n => -(n : Int))
  | l => (digitsVal l).map (fun n => (n : Int))

/-- JS numeric coercion of a value (`none` = NaN). -/
def jsToNum : JSValue → Option Int
  | .null => some 0
  | .undefV => none
  | .bool b => some (if b then 1 else 0)
  | .num n => some n
  | .str s => parseNum s
  | .obj _ => none

/-- JS relational `<` on the values above: string/string compares
    lexicographically, otherwise both sides coerce to number (NaN makes the
    comparison false). -/
def jsLt (a b : JSValue) : Bool :=
  match a, b with
  | .str x, .str y => decide (x < y)
  | _, _ =>
    match jsToNum a, jsToNum b with
    | some x, some y => decide (x < y)
    | _, _ => false

/-- Sort direction (`'asc'` / `'desc'`). -/
inductive Dir where
  | asc
  | desc
deriving DecidableEq, Repr

/-- The direction flip `this.sortDirection === 'asc' ? 'desc' : 'asc'` (part_003:1076). -/
def Dir.flip : Dir → Dir
  | .asc => .desc
  | .desc => .asc

/-- The comparator body of `sort` (part_003:1086-1094). -/
def sortResult (sortDirection : Dir) (column : String) (a b : Row) : Int :=
  let aVal := getCellValue a column
  let bVal := getCellValue b column
  let result : Int := if jsLt aVal bVal then -1 else if jsLt bVal aVal then 1 else 0
  match sortDirection with
  | .desc => -result
  | .asc => result

/-- `this.filteredData.sort(comparator)`: JS `Array.prototype.sort` is stable
    (ES2019), modelled by a stable merge sort with the same comparator. -/
def sortData (d : Dir) (column : String) (rows : List Row) : List Row :=
  rows.mergeSort (fun a b => decide (sortResult d column a b ≤ 0))

/-- Validation and flip/set logic shared by both branches of `sort`
    (part_003:1070-1080): an invalid direction string warns and is treated as
    null; calling with the current sort column and a null direction flips the
    direction, otherwise the column is set and the direction is the explicit
    one, defaulting to ascending (`direction || 'asc'`).
    Returns (new sortColumn, new sortDirection, warned-about-direction). -/
def sortUpdate (curCol : Option String) (curDir : Dir) (column : String)
    (direction : Option String) : Option String × Dir × Bool :=
  let warned : Bool :=
    match direction with
    | some s => !(s == "") && !(s == "asc") && !(s == "desc")
    | none => false
  let d : Option String := if warned then none else direction
  if curCol = some column ∧ d = none then
    (curCol, curDir.flip, warned)
  else
    (some column, (if d = some "desc" then Dir.desc else Dir.asc), warned)

namespace Local

/-- Events emitted on the local-mode paths modelled here. -/
inductive LEv where
  | searchEv (term : String)
  | sortEv (column : String) (direction : Dir)
  | pageChange (page : Int)
  | pageSizeChange (size : ℚ)
  | rowRemove (index : Int)
deriving DecidableEq, Repr

/-- The client-side ("local") slice of the grid's mutable state: the data
    arrays, the view-state fields, the selection set, plus a warning counter
    (`console.warn` calls) and the log of emitted events. -/
structure LState where
  columns : List Column
  originalData : List Row
  filteredData : List Row
  currentPage : Int
  pageSize : ℚ
  sortColumn : Option String
  sortDirection : Dir
  searchTerm : String
  selectedRows : Finset Nat
  warns : Nat
  events : List LEv
deriving DecidableEq

/-- Constructor + `init()` for a local-mode instance (part_003:314-350):
    `originalData` and `filteredData` both start as a copy of the configured
    data, page 1, no sort, empty search, empty selection. -/
def initLocal (columns : List Column) (data : List Row) (pageSize : ℚ) : LState :=
  { columns := columns
    originalData := data
    filteredData := data
    currentPage := 1
    pageSize := pageSize
    sortColumn := none
    sortDirection := .asc
    searchTerm := ""
    selectedRows := ∅
    warns := 0
    events := [] }

/-- `Math.ceil(this.filteredData.length / this.config.pageSize)` (part_003:1112). -/
def totalPages (st : LState) : Int :=
  ⌈(st.filteredData.length : ℚ) / st.pageSize⌉

/-- `goToPage` in local mode (part_003:1111-1118): in-bounds pages are applied
    and `pageChange` emitted; out-of-bounds calls are silent no-ops. -/
def goToPage (st : LState) (page : Int) : LState :=
  if 1 ≤ page ∧ page ≤ totalPages st then
    { st with currentPage := page, events := st.events ++ [.pageChange page] }
  else st

/-- `search` in local mode (part_003:932-950): the term is coerced to string
    and lowercased, filters are re-applied, the page resets to 1, and a
    `search` event (with the original term) is emitted. -/
def search (st : LState) (term : String) : LState :=
  let t := strLower term
  { st with
    searchTerm := t
    filteredData := applyFilters st.columns t st.originalData
    currentPage := 1
    events := st.events ++ [.searchEv term] }

/-- `sort` in local mode (part_003:1057-1101): empty or unknown columns are
    warning no-ops; otherwise the column/direction update of `sortUpdate`
    applies, `filteredData` is sorted in place, and a `sort` event is emitted.
    The current page is not touched on this branch. -/
def sort (st : LState) (column : String) (direction : Option String) : LState :=
  if column = "" then { st with warns := st.warns + 1 }
  else if !(st.columns.any fun c => c.key == column) then { st with warns := st.warns + 1 }
  else
    let u := sortUpdate st.sortColumn st.sortDirection column direction
    { st with
      sortColumn := u.1
      sortDirection := u.2.1
      filteredData := sortData u.2.1 column st.filteredData
      warns := st.warns + (if u.2.2 then 1 else 0)
      events := st.events ++ [.sortEv column u.2.1] }

/-- `setPageSize` (part_003:1122-1139): any number below 1 is a warning no-op
    (the `typeof` guard also rejects non-numbers, not representable here);
    any number `≥ 1` — integral or not — is accepted, and the page resets to 1. -/
def setPageSize (st : LState) (size : ℚ) : LState :=
  if size < 1 then { st with warns := st.warns + 1 }
  else
    { st with
      pageSize := size
      currentPage := 1
      events := st.events ++ [.pageSizeChange size] }

/-- `removeRow` in local mode (part_003:1002-1032): out-of-range indices are
    warning no-ops; otherwise the row is spliced out, the removed index is
    deleted from the selection, every selected index above it is decremented
    (those below are kept), filters are re-applied, and `rowRemove` is emitted. -/
def removeRow (st : LState) (index : Int) : LState :=
  if index < 0 ∨ (st.originalData.length : Int) ≤ index then { st with warns := st.warns + 1 }
  else
    let n := index.toNat
    let newData := st.originalData.eraseIdx n
    { st with
      originalData := newData
      filteredData := applyFilters st.columns st.searchTerm newData
      selectedRows := (st.selectedRows.erase n).image fun j => if n < j then j - 1 else j
      events := st.events ++ [.rowRemove index] }

end Local

/-- Modelled from the spec (§4.2 Filter), for comparison with the code's
    `rowMatchesSearch`: "a row matches if, for at least one configured
    searchable column, the string projection of the resolved cell value
    contains the lowercased search term as a substring. Empty search term
    matches all rows."  The source has no per-column searchable flag, so every
    configured column counts as searchable. -/
def specRowMatches (columns : List Column) (searchTerm : String) (row : Row) : Bool :=
  (searchTerm == "") ||
    columns.any fun column =>
      strIncludes (strLower (getCellValue row column.key).toStr) searchTerm

/-- The debounced search handler (`debounce`, part_003:925-930, wired to the
    input events in `attachEvents`, part_003:800-811): each input event clears
    the pending timeout and schedules `search(term)` at its own time plus the
    wait.  `debounceFires` returns the timer fires — (time, term) pairs at
    which `search` actually runs — for a time-ordered list of input events: a
    timer survives only if the next event arrives no earlier than its fire
    time. -/
def debounceFires (wait : Nat) : List (Nat × String) → List (Nat × String)
  | [] => []
  | e :: rest =>
    match rest with
    | [] => [(e.1 + wait, e.2)]
    | e' :: _ =>
      if e.1 + wait ≤ e'.1 then (e.1 + wait, e.2) :: debounceFires wait rest
      else debounceFires wait rest

/-- The input events are strictly time-ordered with consecutive gaps strictly
    below the debounce wait. -/
def gapsLtB (wait : Nat) : List (Nat × String) → Bool
  | e :: e' :: rest =>
    decide (e.1 < e'.1) && decide (e'.1 < e.1 + wait) && gapsLtB wait (e' :: rest)
  | _ => true

/-- A subscriber callback for the event bus; `some msg` models the callback
    throwing. -/
abbrev Subscriber (α : Type) := α → Option String

/-- Worker for `emitRun`, tracking the index of the next callback. -/
def emitGo {α : Type} (data : α) (i : Nat) : List (Subscriber α) → List Nat × Option String
  | [] => ([], none)
  | cb :: rest =>
    match cb data with
    | none =>
      let r := emitGo data (i + 1) rest
      (i :: r.1, r.2)
    | some e => ([i], some e)

/-- `emit` (part_003:1888-1891): `this.events[event].forEach(cb => cb(data))`
    with no exception handling — returns the indices of the callbacks that were
    invoked, in subscription order, and the exception (if any) that escaped to
    the caller and aborted the iteration. -/
def emitRun {α : Type} (callbacks : List (Subscriber α)) (data : α) :
    List Nat × Option String :=
  emitGo data 0 callbacks

namespace Remote

/-- The request parameters built in `loadServerData` (part_003:1230-1237);
    `draw` is the request token.  The optional `ajax.data` hook only reshapes
    the outgoing payload and is not modelled. -/
structure Params where
  page : Int
  pageSize : ℚ
  search : String
  sortBy : Option String
  sortDir : Dir
  draw : Nat
deriving DecidableEq

/-- Per-instance remote configuration (`config.ajax` / `config.columns`).
    `beforeSend` is the optional pre-send hook; returning `false` vetoes the
    request (part_003:1245-1252). -/
structure RConfig where
  columns : List Column
  pageSize₀ : ℚ
  retryAttempts : Nat
  beforeSend : Option (Params → Bool)

/-- A parsed transport response, with the configured field paths already
    resolved (`getNestedValue` against `serverResponse.{draw,data,total,error}`,
    part_003:1289-1298): `none` for `data` means the resolved value is not an
    array; `none` for `total` means it is not a number; `none` for
    `draw`/`error` means the resolved value is `null`/absent. -/
structure Response where
  draw : Option Int
  data : Option (List Row)
  total : Option Int
  error : Option String
deriving DecidableEq

/-- How one `fetch` settles: a parsed 2xx JSON body, or a transport failure
    (network error / non-ok status / JSON parse error). -/
inductive Outcome where
  | success (r : Response)
  | failure (msg : String)
deriving DecidableEq

/-- Events emitted on the remote paths modelled here. -/
inductive REv where
  | requestStart (page : Int) (search : String) (sortCol : Option String) (dir : Dir)
  | requestEnd (page : Int) (search : String) (sortCol : Option String) (dir : Dir)
  | dataLoaded (rows : List Row) (total : Int) (page : Int) (search : String)
  | serverError (msg : String) (page : Int) (search : String)
  | pageChange (page : Int)
  | searchEv (term : String)
  | sortEv (column : String) (direction : Dir)
  | pageSizeChange (size : ℚ)
deriving DecidableEq

/-- The server-side slice of the grid state.  `current` is the in-flight
    request: its token and whether its controller has been aborted.
    `pendingRetries` counts scheduled (not yet fired) retry timers.
    `dispatchLog` and `commitLog` are history variables recording, in order,
    the tokens whose fetch was actually dispatched and the tokens whose
    response was committed; `warns` counts `console.warn` calls. -/
structure RState where
  currentPage : Int
  pageSize : ℚ
  searchTerm : String
  sortColumn : Option String
  sortDirection : Dir
  filteredData : List Row
  totalRecords : Int
  requestId : Nat
  retryCount : Nat
  isLoading : Bool
  current : Option (Nat × Bool)
  pendingRetries : Nat
  dispatchLog : List Nat
  commitLog : List Nat
  warns : Nat
  events : List REv
deriving DecidableEq

/-- Constructor + `init()` state for a server-side instance before the initial
    `loadServerData()` (part_003:314-345). -/
def initR (cfg : RConfig) : RState :=
  { currentPage := 1
    pageSize := cfg.pageSize₀
    searchTerm := ""
    sortColumn := none
    sortDirection := .asc
    filteredData := []
    totalRecords := 0
    requestId := 0
    retryCount := 0
    isLoading := false
    current := none
    pendingRetries := 0
    dispatchLog := []
    commitLog := []
    warns := 0
    events := [] }

/-- Payload of `serverRequestStart` (part_003:1221-1226). -/
def reqStartEv (st : RState) : REv :=
  .requestStart st.currentPage st.searchTerm st.sortColumn st.sortDirection

/-- Payload of `serverRequestEnd` (part_003:1374-1379). -/
def reqEndEv (st : RState) : REv :=
  .requestEnd st.currentPage st.searchTerm st.sortColumn st.sortDirection

/-- The request parameters for token `tok` (part_003:1230-1237). -/
def mkParams (st : RState) (tok : Nat) : Params :=
  { page := st.currentPage
    pageSize := st.pageSize
    search := st.searchTerm
    sortBy := st.sortColumn
    sortDir := st.sortDirection
    draw := tok }

/-- The synchronous prefix of `loadServerData` (part_003:1203-1279), up to the
    point where the fetch is dispatched: abort any in-flight request
    (1209-1212), bail out if a load is already in progress (1214-1217),
    otherwise set the loading flag, emit `serverRequestStart`, take the next
    token (`++this.requestId`), run the `beforeSend` veto (a vetoed request
    clears the loading flag and returns, which still runs the `finally` block,
    1364-1380), and otherwise dispatch the fetch for the new token. -/
def startLoad (cfg : RConfig) (st : RState) : RState :=
  let st₀ :=
    match st.current with
    | some c => { st with current := some (c.1, true) }
    | none => st
  if st₀.isLoading then st₀
  else
    let st₁ := { st₀ with isLoading := true, events := st₀.events ++ [reqStartEv st₀] }
    let tok := st₁.requestId + 1
    let st₂ := { st₁ with requestId := tok }
    let vetoed : Bool :=
      match cfg.beforeSend with
      | some hook => !hook (mkParams st₂ tok)
      | none => false
    if vetoed then
      { st₂ with isLoading := false, current := none, events := st₂.events ++ [reqEndEv st₂] }
    else
      { st₂ with current := some (tok, false), dispatchLog := st₂.dispatchLog ++ [tok] }

/-- The `finally` block of `loadServerData` (part_003:1364-1380): clear the
    loading flag and the current request, emit `serverRequestEnd`. -/
def finallyBlock (st : RState) : RState :=
  { st with isLoading := false, current := none, events := st.events ++ [reqEndEv st] }

/-- The catch block for a non-abort failure (part_003:1338-1362): while the
    retry budget remains, bump the retry count and schedule a retry timer;
    once exhausted, emit a single `serverError` event.  Either way the
    `finally` block runs.  The committed rows and total are never touched. -/
def failPath (cfg : RConfig) (st : RState) (msg : String) : RState :=
  if st.retryCount < cfg.retryAttempts then
    finallyBlock { st with retryCount := st.retryCount + 1, pendingRetries := st.pendingRetries + 1 }
  else
    finallyBlock
      { st with events := st.events ++ [.serverError msg st.currentPage st.searchTerm] }

/-- The stale-response guard `responseDraw && responseDraw !== requestId`
    (part_003:1289-1293): the echoed token is checked only when truthy. -/
def drawStale (draw : Option Int) (tok : Nat) : Bool :=
  match draw with
  | some v => v != 0 && v != (tok : Int)
  | none => false

/-- The error-field guard `if (error) throw ...` (part_003:1300-1302): only a
    truthy (non-empty) error string counts. -/
def errTruthy : Option String → Option String
  | some msg => if msg = "" then none else some msg
  | none => none

/-- The commit path of `loadServerData` (part_003:1304-1330): a non-array
    `data` field is a malformed-response failure; otherwise the rows and total
    are committed (`total` falls back to the row count when not a number), the
    retry count resets, and `serverDataLoaded` is emitted, followed by the
    `finally` block. -/
def commitPath (cfg : RConfig) (st : RState) (tok : Nat) (r : Response) : RState :=
  match r.data with
  | none => failPath cfg st "Server response data is not an array"
  | some rows =>
    let total : Int :=
      match r.total with
      | some n => n
      | none => (rows.length : Int)
    finallyBlock
      { st with
        filteredData := rows
        totalRecords := total
        retryCount := 0
        commitLog := st.commitLog ++ [tok]
        events := st.events ++ [.dataLoaded rows total st.currentPage st.searchTerm] }

/-- Resumption of `loadServerData` once the fetch for the in-flight token
    `tok` settles (part_003:1279-1380).  An aborted controller resumes with
    `AbortError`, which is logged and dropped (1333-1336) — but the `finally`
    block still runs.  Otherwise a transport failure feeds the retry policy; a
    parsed response is checked for a stale echoed token (discarded with a
    warning), then for a truthy error field, then committed. -/
def resume (cfg : RConfig) (st : RState) (tok : Nat) (aborted : Bool) (out : Outcome) :
    RState :=
  if aborted then finallyBlock st
  else
    match out with
    | .failure msg => failPath cfg st msg
    | .success r =>
      if drawStale r.draw tok then finallyBlock { st with warns := st.warns + 1 }
      else
        match errTruthy r.error with
        | some msg => failPath cfg st msg
        | none => commitPath cfg st tok r

/-- The state mutations that trigger a remote reconciliation. -/
inductive Mut where
  | goToPage (page : Int)
  | setPageSize (size : ℚ)
  | sortCall (column : String) (direction : Option String)
  | searchCall (term : String)

/-- `Math.ceil(this.totalRecords / this.config.pageSize)` (part_003:1105). -/
def totalPages (st : RState) : Int :=
  ⌈(st.totalRecords : ℚ) / st.pageSize⌉

/-- The server-side branches of `goToPage` (1104-1110), `setPageSize`
    (1122-1139), `sort` (1057-1101) and `search` (932-950): validation, state
    update, `loadServerData()` (its synchronous prefix), then the mutation's
    own event. -/
def applyMut (cfg : RConfig) (st : RState) : Mut → RState
  | .goToPage page =>
    if 1 ≤ page ∧ page ≤ totalPages st then
      let st' := startLoad cfg { st with currentPage := page }
      { st' with events := st'.events ++ [.pageChange page] }
    else st
  | .setPageSize size =>
    if size < 1 then { st with warns := st.warns + 1 }
    else
      let st' := startLoad cfg { st with pageSize := size, currentPage := 1 }
      { st' with events := st'.events ++ [.pageSizeChange size] }
  | .sortCall column direction =>
    if column = "" then { st with warns := st.warns + 1 }
    else if !(cfg.columns.any fun c => c.key == column) then { st with warns := st.warns + 1 }
    else
      let u := sortUpdate st.sortColumn st.sortDirection column direction
      let st' := startLoad cfg
        { st with
          sortColumn := u.1
          sortDirection := u.2.1
          warns := st.warns + (if u.2.2 then 1 else 0)
          currentPage := 1 }
      { st' with events := st'.events ++ [.sortEv column u.2.1] }
  | .searchCall term =>
    let st' := startLoad cfg { st with searchTerm := strLower term, currentPage := 1 }
    { st' with events := st'.events ++ [.searchEv term] }

/-- One unit of host-scheduler work: a direct `loadServerData()` call (the
    initial load / `refresh`), a user mutation, the in-flight fetch settling,
    or a scheduled retry timer firing (which re-enters `loadServerData`). -/
inductive Act where
  | load
  | mutate (m : Mut)
  | complete (out : Outcome)
  | retryFire

/-- The small-step transition of the remote engine. -/
def step (cfg : RConfig) (st : RState) : Act → RState
  | .load => startLoad cfg st
  | .mutate m => applyMut cfg st m
  | .complete out =>
    match st.current with
    | some c => resume cfg st c.1 c.2 out
    | none => st
  | .retryFire =>
    if st.pendingRetries = 0 then st
    else startLoad cfg { st with pendingRetries := st.pendingRetries - 1 }

/-- Run a schedule of actions. -/
def applyActs (cfg : RConfig) (st : RState) (acts : List Act) : RState :=
  acts.foldl (step cfg) st

/-- Reachability from the freshly initialized server-side instance. -/
inductive Reachable (cfg : RConfig) : RState → Prop
  | init : Reachable cfg (initR cfg)
  | next (a : Act) {st : RState} : Reachable cfg st → Reachable cfg (step cfg st a)

/-- The token discipline enforced by the `isLoading` guard: the in-flight
    request (when any) carries the latest issued token, and a load is marked
    in progress while it is in flight. -/
def TokenInv (st : RState) : Prop :=
  ∀ tok ab, st.current = some (tok, ab) → tok = st.requestId ∧ st.isLoading = true

end Remote

namespace Remote

/-- A minimal server-side configuration: one column, default page size 10,
    default retry budget 3, no pre-send hook. -/
def cfg0 : RConfig :=
  { columns := [⟨"name"⟩], pageSize₀ := 10, retryAttempts := 3, beforeSend := none }

/-- A concrete data row. -/
def row1 : Row := JSFields.ofList [("name", .str "ada")]

/-- The state right after the initial `loadServerData()` dispatched its fetch
    (token 1 in flight). -/
def stInFlight : RState := step cfg0 (initR cfg0) .load

/-- A response whose echoed token `0` is falsy in JS, bypassing the stale
    check. -/
def respDrawZero : Response :=
  { draw := some 0, data := some [row1], total := some 7, error := none }

/-- A response with a truthy echoed token that matches no issued token. -/
def respDrawFive : Response :=
  { draw := some 5, data := some [row1], total := some 7, error := none }

end Remote

namespace Remote

/-- The validation guard of each mutation (`goToPage` bounds, `setPageSize`
    positivity, `sort` column existence; `search` never fails validation). -/
def MutValid (cfg : RConfig) (st : RState) : Mut → Prop
  | .goToPage page => 1 ≤ page ∧ page ≤ totalPages st
  | .setPageSize size => ¬ size < 1
  | .sortCall column _ => ¬ column = "" ∧ (cfg.columns.any fun c => c.key == column) = true
  | .searchCall _ => True

end Remote

namespace Remote

/-- A remote configuration whose pre-send hook vetoes every request. -/
def cfgVeto : RConfig :=
  { columns := [⟨"name"⟩], pageSize₀ := 10, retryAttempts := 3,
    beforeSend := some (fun _ => false) }

end Remote

namespace Remote

/-- Recognizer for terminal `serverError` events. -/
def isErrorEv : REv → Bool
  | .serverError .. => true
  | _ => false

/-- A successful response echoing its own token. -/
def respOK : Response :=
  { draw := some 1, data := some [row1], total := some 25, error := none }

/-- An idle state with committed rows: the initial load completed with 25
    matching records and one page row. -/
def stCommitted : RState :=
  applyActs cfg0 (initR cfg0) [.load, .complete (.success respOK)]

end Remote

/-- Eleven rows with integer cells 0..10 under key "k". -/
def rows11 : List Row := (List.range 11).map fun i => JSFields.ofList [("k", .num i)]

/-- A local instance on page 2 of the eleven-row dataset (page size 10). -/
def stPage2 : Local.LState := Local.goToPage (Local.initLocal [⟨"k"⟩] rows11 10) 2

/-- A local instance that has been sorted ascending on "k". -/
def stSortedK : Local.LState := Local.sort (Local.initLocal [⟨"k"⟩] [] 10) "k" none

/-- A remote configuration whose single column is "k". -/
def cfgK : Remote.RConfig :=
  { columns := [⟨"k"⟩], pageSize₀ := 10, retryAttempts := 3, beforeSend := none }

/-- An empty local instance with one column and page size 10. -/
def stEmpty : Local.LState := Local.initLocal [⟨"k"⟩] [] 10

/-- Three rows with integer cells 0..2 under key "k". -/
def rows3 : List Row := (List.range 3).map fun i => JSFields.ofList [("k", .num i)]

/-- A local instance over three rows with all three rows selected. -/
def stSel : Local.LState :=
  { Local.initLocal [⟨"k"⟩] rows3 10 with selectedRows := {0, 1, 2} }

namespace Remote

theorem finallyBlock_commitLog (st : RState) : (finallyBlock st).commitLog = st.commitLog := rfl

theorem finallyBlock_filteredData (st : RState) :
    (finallyBlock st).filteredData = st.filteredData := rfl

theorem finallyBlock_totalRecords (st : RState) :
    (finallyBlock st).totalRecords = st.totalRecords := rfl

theorem finallyBlock_current (st : RState) : (finallyBlock st).current = none := rfl

theorem failPath_commitLog (cfg : RConfig) (st : RState) (msg : String) :
    (failPath cfg st msg).commitLog = st.commitLog := by
  unfold failPath
  split <;> rfl

theorem failPath_filteredData (cfg : RConfig) (st : RState) (msg : String) :
    (failPath cfg st msg).filteredData = st.filteredData := by
  unfold failPath
  split <;> rfl

theorem failPath_totalRecords (cfg : RConfig) (st : RState) (msg : String) :
    (failPath cfg st msg).totalRecords = st.totalRecords := by
  unfold failPath
  split <;> rfl

theorem failPath_current (cfg : RConfig) (st : RState) (msg : String) :
    (failPath cfg st msg).current = none := by
  unfold failPath
  split <;> rfl

theorem resume_current (cfg : RConfig) (st : RState) (tok : Nat) (ab : Bool) (out : Outcome) :
    (resume cfg st tok ab out).current = none := by
  unfold resume
  split
  · rfl
  · match out with
    | .failure msg => exact failPath_current ..
    | .success r =>
      simp only
      split
      · rfl
      · match errTruthy r.error with
        | some msg => exact failPath_current ..
        | none =>
          unfold commitPath
          match r.data with
          | none => exact failPath_current ..
          | some rows => rfl

/-- `TokenInv` only looks at three fields. -/
theorem tokenInv_congr {st st' : RState} (hc : st'.current = st.current)
    (hr : st'.requestId = st.requestId) (hl : st'.isLoading = st.isLoading)
    (h : TokenInv st) : TokenInv st' := by
  intro tok ab hcur
  rw [hc] at hcur
  obtain ⟨h1, h2⟩ := h tok ab hcur
  exact ⟨h1.trans hr.symm, hl.trans h2⟩

theorem tokenInv_of_current_none {st : RState} (h : st.current = none) : TokenInv st := by
  intro tok ab hcur
  rw [h] at hcur
  cases hcur

theorem tokenInv_startLoad (cfg : RConfig) {st : RState} (h : TokenInv st) :
    TokenInv (startLoad cfg st) := by
  unfold startLoad
  cases hc : st.current with
  | some c =>
    simp only
    split
    · intro tok ab hcur
      simp only at hcur
      obtain ⟨rfl, rfl⟩ : tok = c.1 ∧ ab = true := by
        constructor <;> [skip; skip] <;> cases hcur <;> rfl
      obtain ⟨h1, -⟩ := h c.1 c.2 hc
      rename_i hload
      exact ⟨h1, hload⟩
    · split
      · exact tokenInv_of_current_none rfl
      · intro tok ab hcur
        cases hcur
        exact ⟨rfl, rfl⟩
  | none =>
    simp only
    split
    · exact tokenInv_congr rfl rfl rfl h
    · split
      · exact tokenInv_of_current_none rfl
      · intro tok ab hcur
        cases hcur
        exact ⟨rfl, rfl⟩

theorem tokenInv_applyMut (cfg : RConfig) {st : RState} (h : TokenInv st) (m : Mut) :
    TokenInv (applyMut cfg st m) := by
  cases m <;> simp only [applyMut] <;> repeat' split
  all_goals
    first
      | exact h
      | exact tokenInv_congr rfl rfl rfl h
      | exact tokenInv_congr rfl rfl rfl (tokenInv_startLoad cfg (tokenInv_congr rfl rfl rfl h))

theorem tokenInv_step (cfg : RConfig) {st : RState} (h : TokenInv st) (a : Act) :
    TokenInv (step cfg st a) := by
  cases a with
  | load => exact tokenInv_startLoad cfg h
  | mutate m => exact tokenInv_applyMut cfg h m
  | complete out =>
    simp only [step]
    cases hc : st.current with
    | some c => simp only; exact tokenInv_of_current_none (resume_current ..)
    | none => exact h
  | retryFire =>
    simp only [step]
    split
    · exact h
    · exact tokenInv_startLoad cfg (tokenInv_congr rfl rfl rfl h)

/-- Every reachable state satisfies the token discipline. -/
theorem reachable_tokenInv {cfg : RConfig} {st : RState} (h : Reachable cfg st) :
    TokenInv st := by
  induction h with
  | init => exact tokenInv_of_current_none rfl
  | next a _ ih => exact tokenInv_step cfg ih a

end Remote

namespace Remote

/-- Whatever the in-flight token resumption does: if it commits at all, it
    commits exactly its own token; and a truthy echoed token different from the
    in-flight token is discarded without touching rows, total, or the commit
    log. -/
theorem resume_commit_spec (cfg : RConfig) (st : RState) (tok : Nat) (ab : Bool)
    (out : Outcome) :
    ((resume cfg st tok ab out).commitLog ≠ st.commitLog →
      (resume cfg st tok ab out).commitLog = st.commitLog ++ [tok])
    ∧ (∀ r d, out = .success r → r.draw = some d → d ≠ 0 → d ≠ (tok : Int) →
        (resume cfg st tok ab out).filteredData = st.filteredData
        ∧ (resume cfg st tok ab out).totalRecords = st.totalRecords
        ∧ (resume cfg st tok ab out).commitLog = st.commitLog) := by
  unfold resume
  split
  · exact ⟨fun hne => absurd (finallyBlock_commitLog st) hne,
      fun r d _ _ _ _ => ⟨finallyBlock_filteredData st, finallyBlock_totalRecords st,
        finallyBlock_commitLog st⟩⟩
  · match out with
    | .failure msg =>
      exact ⟨fun hne => absurd (failPath_commitLog ..) hne,
        fun r d h => by cases h⟩
    | .success r =>
      simp only
      split
      · exact ⟨fun hne => absurd (finallyBlock_commitLog _) hne,
          fun r' d h => by
            cases h
            exact fun _ _ _ => ⟨finallyBlock_filteredData _, finallyBlock_totalRecords _,
              finallyBlock_commitLog _⟩⟩
      · rename_i hstale
        match herr : errTruthy r.error with
        | some msg =>
          exact ⟨fun hne => absurd (failPath_commitLog ..) hne,
            fun r' d h => by
              cases h
              intro hd hd0 hdtok
              exact ⟨failPath_filteredData .., failPath_totalRecords .., failPath_commitLog ..⟩⟩
        | none =>
          unfold commitPath
          match hdata : r.data with
          | none =>
            exact ⟨fun hne => absurd (failPath_commitLog ..) hne,
              fun r' d h => by
                cases h
                intro hd hd0 hdtok
                exact ⟨failPath_filteredData .., failPath_totalRecords .., failPath_commitLog ..⟩⟩
          | some rows =>
            refine ⟨fun _ => rfl, fun r' d h => ?_⟩
            cases h
            intro hd hd0 hdtok
            exfalso
            rw [hd] at hstale
            simp [drawStale, hd0, hdtok] at hstale

end Remote

/-- C1, counterexample: the claim says a response is committed only if its
    echoed token equals the latest issued token, and that a mismatching echoed
    token is discarded with no state change.  But the guard is
    `responseDraw && responseDraw !== requestId`, so a response echoing token
    `0` — falsy in JS — bypasses the check: after the initial load (latest
    issued token 1), a completed response with echoed token 0 is committed
    (commit log gains token 1, totalCount becomes 7), although its echoed
    token 0 differs from the latest issued token 1. -/
theorem c1_counterexample :
    (Remote.applyActs Remote.cfg0 (Remote.initR Remote.cfg0)
        [.load, .complete (.success Remote.respDrawZero)]).requestId = 1
    ∧ Remote.respDrawZero.draw = some 0
    ∧ (0 : Int) ≠ (1 : Int)
    ∧ (Remote.applyActs Remote.cfg0 (Remote.initR Remote.cfg0)
        [.load, .complete (.success Remote.respDrawZero)]).commitLog = [1]
    ∧ (Remote.applyActs Remote.cfg0 (Remote.initR Remote.cfg0)
        [.load, .complete (.success Remote.respDrawZero)]).totalRecords = 7 := by
  decide

/-- C1 (amended): in remote mode, in any reachable state, a completed
    transport response can only ever commit the latest issued request token
    (so for tokens A < B, A's response never overwrites state once B has been
    issued), and a response whose echoed token is truthy (present and nonzero)
    and differs from the latest issued token is discarded with no change to
    the committed rows, total count, or commit log.  A falsy echoed token
    (absent, null, or 0) bypasses the staleness check and commits. -/
theorem c1_token_discipline (cfg : Remote.RConfig) (st : Remote.RState)
    (out : Remote.Outcome) (hreach : Remote.Reachable cfg st) :
    ((Remote.step cfg st (.complete out)).commitLog ≠ st.commitLog →
      (Remote.step cfg st (.complete out)).commitLog = st.commitLog ++ [st.requestId])
    ∧ (∀ r d, out = .success r → r.draw = some d → d ≠ 0 → d ≠ (st.requestId : Int) →
        (Remote.step cfg st (.complete out)).filteredData = st.filteredData
        ∧ (Remote.step cfg st (.complete out)).totalRecords = st.totalRecords
        ∧ (Remote.step cfg st (.complete out)).commitLog = st.commitLog) := by
  cases hc : st.current with
  | none =>
    have hstep : Remote.step cfg st (.complete out) = st := by simp [Remote.step, hc]
    rw [hstep]
    exact ⟨fun hne => absurd rfl hne, fun r d _ _ _ _ => ⟨rfl, rfl, rfl⟩⟩
  | some c =>
    obtain ⟨htok, -⟩ := Remote.reachable_tokenInv hreach c.1 c.2 hc
    simp only [Remote.step, hc]
    rw [htok]
    exact Remote.resume_commit_spec cfg st st.requestId c.2 out

/-- C1 witness: with token 1 in flight from the initial load, a response whose
    truthy echoed token 5 mismatches the latest issued token 1 leaves rows,
    total count and commit log unchanged. -/
theorem c1_token_discipline_witness :
    (Remote.step Remote.cfg0 Remote.stInFlight
        (.complete (.success Remote.respDrawFive))).filteredData
      = Remote.stInFlight.filteredData
    ∧ (Remote.step Remote.cfg0 Remote.stInFlight
        (.complete (.success Remote.respDrawFive))).totalRecords
      = Remote.stInFlight.totalRecords
    ∧ (Remote.step Remote.cfg0 Remote.stInFlight
        (.complete (.success Remote.respDrawFive))).commitLog
      = Remote.stInFlight.commitLog := by
  have h := c1_token_discipline Remote.cfg0 Remote.stInFlight
    (.success Remote.respDrawFive) (Remote.Reachable.next .load Remote.Reachable.init)
  exact h.2 Remote.respDrawFive 5 rfl rfl (by decide) (by decide)

namespace Remote

/-- With no pre-send hook and no load in progress, `loadServerData` dispatches
    exactly one request, carrying the next token. -/
theorem startLoad_dispatch_of_idle (cfg : RConfig) (st : RState)
    (hhook : cfg.beforeSend = none) (hload : st.isLoading = false) :
    (startLoad cfg st).dispatchLog = st.dispatchLog ++ [st.requestId + 1] := by
  unfold startLoad
  cases hc : st.current with
  | some c => simp [hc, hload, hhook]
  | none => simp [hc, hload, hhook]

/-- While a load is in progress, `loadServerData` aborts the in-flight
    controller and returns without dispatching anything. -/
theorem startLoad_skip_of_loading (cfg : RConfig) (st : RState)
    (hload : st.isLoading = true) :
    (startLoad cfg st).dispatchLog = st.dispatchLog
    ∧ (startLoad cfg st).current = st.current.map (fun c => (c.1, true)) := by
  unfold startLoad
  cases hc : st.current with
  | some c => simp [hc, hload]
  | none => simp [hc, hload]

/-- `loadServerData` never changes the stored search term. -/
theorem startLoad_searchTerm (cfg : RConfig) (st : RState) :
    (startLoad cfg st).searchTerm = st.searchTerm := by
  unfold startLoad
  cases hc : st.current <;> simp only [hc] <;> split <;> (try split) <;> rfl

end Remote

/-- C3 (amended): with no pre-send hook configured, every validation-passing
    mutation triggers exactly one reconciliation with the remote engine, and
    exactly one request is dispatched for it when no earlier request is still
    in flight; but when an earlier request is in flight at the time of the
    mutation, `loadServerData`'s concurrency guard aborts the in-flight
    request and returns without dispatching any request for that mutation. -/
theorem c3_dispatch_per_mutation (cfg : Remote.RConfig) (st : Remote.RState)
    (m : Remote.Mut) (hv : Remote.MutValid cfg st m) (hhook : cfg.beforeSend = none) :
    (st.isLoading = false →
      (Remote.applyMut cfg st m).dispatchLog = st.dispatchLog ++ [st.requestId + 1])
    ∧ (st.isLoading = true →
      (Remote.applyMut cfg st m).dispatchLog = st.dispatchLog
      ∧ (Remote.applyMut cfg st m).current = st.current.map (fun c => (c.1, true))) := by
  cases m with
  | goToPage page =>
    simp only [Remote.MutValid] at hv
    simp only [Remote.applyMut, if_pos hv]
    exact ⟨fun hload => Remote.startLoad_dispatch_of_idle cfg _ hhook hload,
      fun hload => Remote.startLoad_skip_of_loading cfg _ hload⟩
  | setPageSize size =>
    simp only [Remote.MutValid] at hv
    simp only [Remote.applyMut, if_neg hv]
    exact ⟨fun hload => Remote.startLoad_dispatch_of_idle cfg _ hhook hload,
      fun hload => Remote.startLoad_skip_of_loading cfg _ hload⟩
  | sortCall column direction =>
    simp only [Remote.MutValid] at hv
    simp only [Remote.applyMut, if_neg hv.1, hv.2, Bool.not_true, Bool.false_eq_true,
      if_false]
    exact ⟨fun hload => Remote.startLoad_dispatch_of_idle cfg _ hhook hload,
      fun hload => Remote.startLoad_skip_of_loading cfg _ hload⟩
  | searchCall term =>
    simp only [Remote.applyMut]
    exact ⟨fun hload => Remote.startLoad_dispatch_of_idle cfg _ hhook hload,
      fun hload => Remote.startLoad_skip_of_loading cfg _ hload⟩

/-- C3 witness: from the freshly initialized instance (idle), a search
    mutation dispatches exactly the one request with token 1; from the state
    with token 1 in flight, a further search mutation dispatches nothing. -/
theorem c3_dispatch_per_mutation_witness :
    (Remote.applyMut Remote.cfg0 (Remote.initR Remote.cfg0) (.searchCall "x")).dispatchLog = [1]
    ∧ (Remote.applyMut Remote.cfg0 Remote.stInFlight (.searchCall "y")).dispatchLog
      = Remote.stInFlight.dispatchLog := by
  constructor
  · have h := c3_dispatch_per_mutation Remote.cfg0 (Remote.initR Remote.cfg0)
      (.searchCall "x") trivial rfl
    have h1 := h.1 rfl
    simpa using h1
  · have h := c3_dispatch_per_mutation Remote.cfg0 Remote.stInFlight
      (.searchCall "y") trivial rfl
    exact (h.2 (by decide)).1

/-- C3 counterexample: the claim says exactly one request is dispatched per
    successful mutation even when an earlier request is still in flight.  In
    fact, after the first search mutation dispatches token 1, a second search
    mutation issued while that request is in flight takes effect (the stored
    term becomes "ab" and its `search` event is emitted) but dispatches no
    request at all: the dispatch log still holds only token 1. -/
theorem c3_counterexample :
    (Remote.applyActs Remote.cfg0 (Remote.initR Remote.cfg0)
        [.mutate (.searchCall "a")]).dispatchLog = [1]
    ∧ (Remote.applyActs Remote.cfg0 (Remote.initR Remote.cfg0)
        [.mutate (.searchCall "a")]).isLoading = true
    ∧ (Remote.applyActs Remote.cfg0 (Remote.initR Remote.cfg0)
        [.mutate (.searchCall "a"), .mutate (.searchCall "ab")]).searchTerm = "ab"
    ∧ (Remote.applyActs Remote.cfg0 (Remote.initR Remote.cfg0)
        [.mutate (.searchCall "a"), .mutate (.searchCall "ab")]).events.getLast?
      = some (.searchEv "ab")
    ∧ (Remote.applyActs Remote.cfg0 (Remote.initR Remote.cfg0)
        [.mutate (.searchCall "a"), .mutate (.searchCall "ab")]).dispatchLog = [1] := by
  decide

/-- C4 (amended): when the pre-send hook returns false for a reconciliation
    from an idle state, the request is vetoed: no transport call is made (the
    dispatch log is unchanged) and the view state is unchanged (rows,
    totalCount, page, commit log), and no `dataLoaded` or `error` event fires —
    but the veto is not fully silent: `serverRequestStart` has already been
    emitted before the hook runs, and the `finally` block still emits
    `serverRequestEnd` (and a request token is still consumed). -/
theorem c4_veto_behaviour (cfg : Remote.RConfig) (st : Remote.RState)
    (hook : Remote.Params → Bool) (hhook : cfg.beforeSend = some hook)
    (hload : st.isLoading = false) (hcur : st.current = none)
    (hveto : hook (Remote.mkParams st (st.requestId + 1)) = false) :
    (Remote.startLoad cfg st).dispatchLog = st.dispatchLog
    ∧ (Remote.startLoad cfg st).filteredData = st.filteredData
    ∧ (Remote.startLoad cfg st).totalRecords = st.totalRecords
    ∧ (Remote.startLoad cfg st).commitLog = st.commitLog
    ∧ (Remote.startLoad cfg st).currentPage = st.currentPage
    ∧ (Remote.startLoad cfg st).isLoading = false
    ∧ (Remote.startLoad cfg st).current = none
    ∧ (Remote.startLoad cfg st).requestId = st.requestId + 1
    ∧ (Remote.startLoad cfg st).events = st.events ++
        [.requestStart st.currentPage st.searchTerm st.sortColumn st.sortDirection,
         .requestEnd st.currentPage st.searchTerm st.sortColumn st.sortDirection] := by
  simp only [Remote.mkParams] at hveto
  unfold Remote.startLoad
  rw [hcur]
  simp [hload, hhook, Remote.mkParams, hveto, Remote.reqStartEv, Remote.reqEndEv]

/-- C4 witness: from the freshly initialized instance with an always-vetoing
    hook, a `loadServerData` call dispatches nothing, commits nothing, and
    emits exactly `serverRequestStart` followed by `serverRequestEnd`. -/
theorem c4_veto_behaviour_witness :
    (Remote.startLoad Remote.cfgVeto (Remote.initR Remote.cfgVeto)).dispatchLog = []
    ∧ (Remote.startLoad Remote.cfgVeto (Remote.initR Remote.cfgVeto)).events =
        [.requestStart 1 "" none .asc, .requestEnd 1 "" none .asc] := by
  have h := c4_veto_behaviour Remote.cfgVeto (Remote.initR Remote.cfgVeto)
    (fun _ => false) rfl rfl rfl rfl
  exact ⟨h.1, by rw [h.2.2.2.2.2.2.2.2]; rfl⟩

/-- C4 counterexample: the claim says a vetoed reconciliation emits no event.
    With an always-vetoing hook, the initial `loadServerData()` makes no
    transport call and commits nothing, yet its event log is not empty: it
    contains `serverRequestStart` and `serverRequestEnd`. -/
theorem c4_counterexample :
    (Remote.applyActs Remote.cfgVeto (Remote.initR Remote.cfgVeto) [.load]).events
      = [.requestStart 1 "" none .asc, .requestEnd 1 "" none .asc]
    ∧ (Remote.applyActs Remote.cfgVeto (Remote.initR Remote.cfgVeto) [.load]).events ≠ []
    ∧ (Remote.applyActs Remote.cfgVeto (Remote.initR Remote.cfgVeto) [.load]).dispatchLog = []
    ∧ (Remote.applyActs Remote.cfgVeto (Remote.initR Remote.cfgVeto) [.load]).commitLog = [] := by
  decide

/-- C5: with the default retry budget of 3 retries and no pre-send hook, when
    every attempt of a reconciliation fails at the transport level — the
    initial dispatch and the three scheduled retries, exhausting the budget —
    exactly one terminal `serverError` event fires (the first three failures
    only schedule retries), four requests were dispatched in total, and the
    previously committed rows and total count are untouched throughout (the
    view is never blanked). -/
theorem c5_retry_exhaustion (cfg : Remote.RConfig) (st : Remote.RState)
    (m1 m2 m3 m4 : String)
    (hretry : cfg.retryAttempts = 3) (hhook : cfg.beforeSend = none)
    (hload : st.isLoading = false) (hcur : st.current = none)
    (hr0 : st.retryCount = 0) (hp0 : st.pendingRetries = 0) :
    (Remote.applyActs cfg st
        [.load, .complete (.failure m1), .retryFire, .complete (.failure m2),
         .retryFire, .complete (.failure m3), .retryFire,
         .complete (.failure m4)]).filteredData = st.filteredData
    ∧ (Remote.applyActs cfg st
        [.load, .complete (.failure m1), .retryFire, .complete (.failure m2),
         .retryFire, .complete (.failure m3), .retryFire,
         .complete (.failure m4)]).totalRecords = st.totalRecords
    ∧ (Remote.applyActs cfg st
        [.load, .complete (.failure m1), .retryFire, .complete (.failure m2),
         .retryFire, .complete (.failure m3), .retryFire,
         .complete (.failure m4)]).events.countP (fun e => Remote.isErrorEv e)
      = st.events.countP (fun e => Remote.isErrorEv e) + 1
    ∧ (Remote.applyActs cfg st
        [.load, .complete (.failure m1), .retryFire, .complete (.failure m2),
         .retryFire, .complete (.failure m3), .retryFire,
         .complete (.failure m4)]).dispatchLog.length = st.dispatchLog.length + 4 := by
  simp [Remote.applyActs, Remote.step, Remote.startLoad, Remote.resume, Remote.failPath,
    Remote.finallyBlock, Remote.reqStartEv, Remote.reqEndEv, Remote.isErrorEv,
    hretry, hhook, hload, hcur, hr0, hp0, List.countP_append, List.countP_cons]

/-- C5 witness: from the concrete committed state (25 records, one visible
    row, token 1 committed), four consecutive transport failures under the
    default budget leave the committed rows and total in place, emit exactly
    one `serverError`, and correspond to four dispatched requests. -/
theorem c5_retry_exhaustion_witness :
    (Remote.applyActs Remote.cfg0 Remote.stCommitted
        [.load, .complete (.failure "e1"), .retryFire, .complete (.failure "e2"),
         .retryFire, .complete (.failure "e3"), .retryFire,
         .complete (.failure "e4")]).filteredData = Remote.stCommitted.filteredData
    ∧ (Remote.applyActs Remote.cfg0 Remote.stCommitted
        [.load, .complete (.failure "e1"), .retryFire, .complete (.failure "e2"),
         .retryFire, .complete (.failure "e3"), .retryFire,
         .complete (.failure "e4")]).totalRecords = Remote.stCommitted.totalRecords
    ∧ (Remote.applyActs Remote.cfg0 Remote.stCommitted
        [.load, .complete (.failure "e1"), .retryFire, .complete (.failure "e2"),
         .retryFire, .complete (.failure "e3"), .retryFire,
         .complete (.failure "e4")]).events.countP (fun e => Remote.isErrorEv e)
      = Remote.stCommitted.events.countP (fun e => Remote.isErrorEv e) + 1
    ∧ (Remote.applyActs Remote.cfg0 Remote.stCommitted
        [.load, .complete (.failure "e1"), .retryFire, .complete (.failure "e2"),
         .retryFire, .complete (.failure "e3"), .retryFire,
         .complete (.failure "e4")]).dispatchLog.length
      = Remote.stCommitted.dispatchLog.length + 4 :=
  c5_retry_exhaustion Remote.cfg0 Remote.stCommitted "e1" "e2" "e3" "e4"
    rfl rfl (by decide) (by decide) (by decide) (by decide)

/-- Any burst of input events with consecutive gaps strictly inside the
    debounce window collapses to a single timer fire, at the last event's time
    plus the wait, carrying the last event's term. -/
theorem debounce_coalesce (wait t : Nat) (s : String) (evs : List (Nat × String))
    (hch : gapsLtB wait (evs ++ [(t, s)]) = true) :
    debounceFires wait (evs ++ [(t, s)]) = [(t + wait, s)] := by
  induction evs with
  | nil => rfl
  | cons e evs ih =>
    rw [List.cons_append] at hch ⊢
    cases hevs : evs ++ [(t, s)] with
    | nil => simp at hevs
    | cons e' rest =>
      rw [hevs] at hch
      simp only [gapsLtB, Bool.and_eq_true, decide_eq_true_eq] at hch
      obtain ⟨⟨h1, h2⟩, h3⟩ := hch
      have hnot : ¬ (e.1 + wait ≤ e'.1) := by omega
      simp only [debounceFires, if_neg hnot]
      have := ih (by rw [hevs]; exact h3)
      rw [hevs] at this
      exact this

/-- C2: for every time-ordered burst of search input events whose consecutive
    gaps are all shorter than the debounce wait (default 300 ms), the
    debounced handler fires exactly once — at the last event's time plus the
    wait, so never immediately — carrying the final term; and from an idle
    remote state that single `search` call dispatches exactly one request,
    with the stored search term being the lowercased final term. -/
theorem c2_search_debounce (wait t : Nat) (s : String) (evs : List (Nat × String))
    (hw : 0 < wait) (hch : gapsLtB wait (evs ++ [(t, s)]) = true) :
    debounceFires wait (evs ++ [(t, s)]) = [(t + wait, s)]
    ∧ t < t + wait
    ∧ ∀ (cfg : Remote.RConfig) (st : Remote.RState),
        cfg.beforeSend = none → st.isLoading = false →
          (Remote.applyMut cfg st (.searchCall s)).dispatchLog
            = st.dispatchLog ++ [st.requestId + 1]
          ∧ (Remote.applyMut cfg st (.searchCall s)).searchTerm = strLower s := by
  refine ⟨debounce_coalesce wait t s evs hch, by omega, fun cfg st hhook hload => ?_⟩
  constructor
  · simpa only [Remote.applyMut] using
      Remote.startLoad_dispatch_of_idle cfg
        { st with searchTerm := strLower s, currentPage := 1 } hhook hload
  · simp only [Remote.applyMut]
    rw [Remote.startLoad_searchTerm]

/-- C2 witness: the spec's scenario — `setSearch("a")` then `setSearch("ab")`
    50 ms apart with a 300 ms debounce — fires once at 350 ms with term "ab",
    and that single call from the fresh instance dispatches exactly request
    token 1 carrying search term "ab". -/
theorem c2_search_debounce_witness :
    debounceFires 300 [(0, "a"), (50, "ab")] = [(350, "ab")]
    ∧ (Remote.applyMut Remote.cfg0 (Remote.initR Remote.cfg0)
        (.searchCall "ab")).dispatchLog = [1]
    ∧ (Remote.applyMut Remote.cfg0 (Remote.initR Remote.cfg0)
        (.searchCall "ab")).searchTerm = "ab" := by
  have h := c2_search_debounce 300 50 "ab" [(0, "a")] (by decide) (by decide)
  have h2 := h.2.2 Remote.cfg0 (Remote.initR Remote.cfg0) rfl rfl
  refine ⟨h.1, ?_, ?_⟩
  · have := h2.1
    simpa using this
  · have := h2.2
    rw [this]
    decide

/-- C6 counterexample: the claim says a row passes iff some searchable
    column's string projection contains the lowercased term.  A cell holding
    the number 0 has string projection "0", which contains the search term
    "0" — so the claim (and `specRowMatches`, modelled from the spec's words)
    accepts the row — but the code's truthiness guard (`value && ...`)
    rejects it: `search("0")` filters the row out. -/
theorem c6_counterexample :
    specRowMatches [⟨"k"⟩] "0" (JSFields.ofList [("k", .num 0)]) = true
    ∧ strIncludes (strLower (getCellValue (JSFields.ofList [("k", .num 0)]) "k").toStr) "0"
      = true
    ∧ (Local.search
        (Local.initLocal [⟨"k"⟩] [JSFields.ofList [("k", .num 0)]] 10) "0").filteredData
      = [] := by
  decide

/-- C6 (amended): in local mode, `search(t)` stores the lowercased term and
    filters the original data row by row; the (lowercased, stored) term keeps
    every row when empty, and a non-empty term keeps a row iff for at least
    one configured column the resolved cell value is truthy (falsy cells —
    0, empty string, null, false, undefined — never match) and its lowercased
    string projection contains the term as a substring.  All configured
    columns are searched (there is no per-column searchable flag). -/
theorem c6_filter_characterisation (st : Local.LState) (t : String) (row : Row) :
    (Local.search st t).filteredData
      = st.originalData.filter (rowMatchesSearch st.columns (strLower t))
    ∧ (rowMatchesSearch st.columns (strLower t) row = true ↔
        (strLower t = "" ∨ ∃ c ∈ st.columns,
          (getCellValue row c.key).truthy = true
          ∧ strIncludes (strLower (getCellValue row c.key).toStr) (strLower t) = true)) := by
  constructor
  · rfl
  · unfold rowMatchesSearch
    split
    · rename_i h
      simp [h]
    · rename_i h
      simp [h, List.any_eq_true, Bool.and_eq_true]

namespace Remote

/-- `loadServerData` never changes the view-state fields: page, page size,
    sort settings, committed rows, or the total count. -/
theorem startLoad_view_fields (cfg : RConfig) (st : RState) :
    (startLoad cfg st).currentPage = st.currentPage
    ∧ (startLoad cfg st).pageSize = st.pageSize
    ∧ (startLoad cfg st).sortColumn = st.sortColumn
    ∧ (startLoad cfg st).sortDirection = st.sortDirection
    ∧ (startLoad cfg st).filteredData = st.filteredData
    ∧ (startLoad cfg st).totalRecords = st.totalRecords := by
  unfold startLoad
  cases hc : st.current <;> simp only [hc] <;> split <;> (try split) <;>
    exact ⟨rfl, rfl, rfl, rfl, rfl, rfl⟩

end Remote

/-- C7 counterexample: the claim says every successful sort call resets the
    current page to 1 in both local and remote mode.  In local mode it does
    not: from page 2 of an eleven-row dataset, a valid `sort("k")` call
    succeeds (the sort column is set, no warning) yet the current page stays
    2 — only the server-side branch resets the page. -/
theorem c7_counterexample :
    stPage2.currentPage = 2
    ∧ (Local.sort stPage2 "k" none).sortColumn = some "k"
    ∧ (Local.sort stPage2 "k" none).warns = 0
    ∧ (Local.sort stPage2 "k" none).currentPage = 2 := by
  have hlen : rows11.length = 11 := by decide
  have htp : Local.totalPages (Local.initLocal [⟨"k"⟩] rows11 10) = 2 := by
    unfold Local.totalPages Local.initLocal
    rw [hlen]
    norm_num [Int.ceil_eq_iff]
  have hst : stPage2
      = { Local.initLocal [⟨"k"⟩] rows11 10 with
          currentPage := 2, events := [.pageChange 2] } := by
    unfold stPage2 Local.goToPage
    rw [if_pos ⟨by norm_num, by simp [htp]⟩]
    simp [Local.initLocal]
  rw [hst]
  refine ⟨rfl, ?_, ?_, ?_⟩ <;> decide

/-- C7 (amended): a sort call naming a column that is not among the
    configured columns is a warning no-op; a call naming the current sort
    column with no explicit direction flips the direction; an explicit
    direction sets exactly that direction; and a successful sort call resets
    the current page to 1 in remote mode, while in local mode the current
    page is left unchanged. -/
theorem c7_sort_contract (st : Local.LState) (cfg : Remote.RConfig)
    (rst : Remote.RState) (column bad : String)
    (hb : (st.columns.any fun c => c.key == bad) = false)
    (hcol : ¬ column = "")
    (hl : (st.columns.any fun c => c.key == column) = true)
    (hr : (cfg.columns.any fun c => c.key == column) = true) :
    Local.sort st bad none = { st with warns := st.warns + 1 }
    ∧ (st.sortColumn = some column →
        (Local.sort st column none).sortDirection = st.sortDirection.flip
        ∧ (Local.sort st column none).sortColumn = some column)
    ∧ (Local.sort st column (some "desc")).sortDirection = .desc
    ∧ (Local.sort st column (some "asc")).sortDirection = .asc
    ∧ (Local.sort st column (some "desc")).sortColumn = some column
    ∧ (Local.sort st column none).currentPage = st.currentPage
    ∧ (Local.sort st column (some "desc")).currentPage = st.currentPage
    ∧ (Remote.applyMut cfg rst (.sortCall column (some "desc"))).currentPage = 1
    ∧ (Remote.applyMut cfg rst (.sortCall column (some "desc"))).sortDirection = .desc := by
  refine ⟨?_, ?_, ?_, ?_, ?_, ?_, ?_, ?_, ?_⟩
  · unfold Local.sort
    by_cases hbe : bad = ""
    · simp [hbe]
    · simp [hbe, hb]
  · intro hsc
    constructor <;> simp [Local.sort, hcol, hl, sortUpdate, hsc]
  · simp [Local.sort, hcol, hl, sortUpdate]
  · simp [Local.sort, hcol, hl, sortUpdate]
  · simp [Local.sort, hcol, hl, sortUpdate]
  · simp [Local.sort, hcol, hl, sortUpdate]
  · simp [Local.sort, hcol, hl, sortUpdate]
  · simp only [Remote.applyMut, if_neg hcol, hr, Bool.not_true, Bool.false_eq_true, if_false]
    rw [(Remote.startLoad_view_fields cfg _).1]
  · simp only [Remote.applyMut, if_neg hcol, hr, Bool.not_true, Bool.false_eq_true, if_false]
    rw [(Remote.startLoad_view_fields cfg _).2.2.2.1]
    simp [sortUpdate]

/-- C7 witness: on the concrete sorted-by-"k" local instance, re-sorting "k"
    with no direction flips ascending to descending and keeps the page;
    in remote mode an explicit descending sort resets the page to 1. -/
theorem c7_sort_contract_witness :
    (Local.sort stSortedK "k" none).sortDirection = Dir.desc
    ∧ (Local.sort stSortedK "k" none).currentPage = stSortedK.currentPage
    ∧ (Remote.applyMut cfgK (Remote.initR cfgK)
        (.sortCall "k" (some "desc"))).currentPage = 1 := by
  have h := c7_sort_contract stSortedK cfgK (Remote.initR cfgK) "k" "zz"
    (by decide) (by decide) (by decide) (by decide)
  refine ⟨?_, h.2.2.2.2.2.1, ?_⟩
  · have hflip := (h.2.1 (by decide)).1
    rw [hflip]
    decide
  · exact h.2.2.2.2.2.2.2.1

/-- C8 counterexample: the claim says `setPageSize(n)` is a warning no-op for
    every `n` that is not a positive integer.  The guard only rejects
    non-numbers and numbers below 1, so the non-integer 5/2 is accepted: it
    becomes the page size, the page resets to 1, and no warning fires. -/
theorem c8_counterexample :
    (¬ ∃ n : ℤ, (n : ℚ) = 5 / 2)
    ∧ (Local.setPageSize stEmpty (5 / 2)).pageSize = 5 / 2
    ∧ (Local.setPageSize stEmpty (5 / 2)).currentPage = 1
    ∧ (Local.setPageSize stEmpty (5 / 2)).warns = 0 := by
  have hnlt : ¬ (5 / 2 : ℚ) < 1 := by norm_num
  refine ⟨?_, ?_, ?_, ?_⟩
  · rintro ⟨n, hn⟩
    have h5 : (n : ℚ) * 2 = 5 := by rw [hn]; norm_num
    have h5' : (n * 2 : ℤ) = 5 := by exact_mod_cast h5
    omega
  all_goals
    unfold Local.setPageSize
    rw [if_neg hnlt]
    try rfl

/-- C8 (amended): `setPageSize(n)` is a warning no-op exactly when `n` is
    below 1 (the `typeof` guard additionally rejects non-numbers); any number
    `n ≥ 1` — integer or not — is accepted: the page size becomes `n` and the
    current page resets to 1, in both local and remote mode. -/
theorem c8_page_size_contract (st : Local.LState) (rcfg : Remote.RConfig)
    (rst : Remote.RState) (q : ℚ) :
    (q < 1 → Local.setPageSize st q = { st with warns := st.warns + 1 })
    ∧ (q < 1 → Remote.applyMut rcfg rst (.setPageSize q) = { rst with warns := rst.warns + 1 })
    ∧ (¬ q < 1 →
        (Local.setPageSize st q).pageSize = q
        ∧ (Local.setPageSize st q).currentPage = 1
        ∧ (Remote.applyMut rcfg rst (.setPageSize q)).pageSize = q
        ∧ (Remote.applyMut rcfg rst (.setPageSize q)).currentPage = 1) := by
  refine ⟨?_, ?_, ?_⟩
  · intro hlt
    unfold Local.setPageSize
    rw [if_pos hlt]
  · intro hlt
    simp only [Remote.applyMut]
    rw [if_pos hlt]
  · intro hge
    refine ⟨?_, ?_, ?_, ?_⟩
    · unfold Local.setPageSize
      rw [if_neg hge]
    · unfold Local.setPageSize
      rw [if_neg hge]
    · simp only [Remote.applyMut]
      rw [if_neg hge]
      exact (Remote.startLoad_view_fields rcfg _).2.1
    · simp only [Remote.applyMut]
      rw [if_neg hge]
      exact (Remote.startLoad_view_fields rcfg _).1

/-- C8 witness: on the concrete empty instance, `setPageSize(0)` is a warning
    no-op while `setPageSize(5)` sets the page size and resets the page, in
    both modes. -/
theorem c8_page_size_contract_witness :
    Local.setPageSize stEmpty 0 = { stEmpty with warns := stEmpty.warns + 1 }
    ∧ (Local.setPageSize stEmpty 5).pageSize = 5
    ∧ (Local.setPageSize stEmpty 5).currentPage = 1
    ∧ (Remote.applyMut Remote.cfg0 (Remote.initR Remote.cfg0)
        (.setPageSize 5)).currentPage = 1 := by
  have h0 := c8_page_size_contract stEmpty Remote.cfg0 (Remote.initR Remote.cfg0) 0
  have h5 := c8_page_size_contract stEmpty Remote.cfg0 (Remote.initR Remote.cfg0) 5
  exact ⟨h0.1 (by norm_num), (h5.2.2 (by norm_num)).1, (h5.2.2 (by norm_num)).2.1,
    (h5.2.2 (by norm_num)).2.2.2⟩

/-- Delivery stops at the first raising callback: with all of `pre`
    succeeding and `bad` raising, exactly the callbacks up to and including
    `bad` are invoked, whatever the starting index. -/
theorem emitGo_stops {α : Type} (data : α) (e : String) (post : List (Subscriber α))
    (bad : Subscriber α) (hbad : bad data = some e) :
    ∀ (pre : List (Subscriber α)) (i : Nat), (∀ cb ∈ pre, cb data = none) →
      emitGo data i (pre ++ bad :: post) = (List.range' i (pre.length + 1), some e) := by
  intro pre
  induction pre with
  | nil =>
    intro i _
    simp [emitGo, hbad, List.range']
  | cons cb pre ih =>
    intro i hpre
    have hcb : cb data = none := hpre cb (List.mem_cons_self ..)
    have hrest : ∀ c ∈ pre, c data = none := fun c hc => hpre c (List.mem_cons_of_mem _ hc)
    rw [List.cons_append]
    simp only [emitGo, hcb]
    rw [ih (i + 1) hrest]
    simp [List.range']

/-- C9 (amended): `emit` invokes subscribers in subscription order, but a
    subscriber that raises an error stops the `forEach` iteration: with every
    subscriber before position k succeeding and the k-th raising, exactly the
    first k+1 subscribers are invoked, the error escapes to `emit`'s caller,
    and the subscribers after position k never receive the event. -/
theorem c9_emit_stops_at_raising {α : Type} (data : α) (e : String)
    (pre post : List (Subscriber α)) (bad : Subscriber α)
    (hpre : ∀ cb ∈ pre, cb data = none) (hbad : bad data = some e) :
    emitRun (pre ++ bad :: post) data = (List.range (pre.length + 1), some e) := by
  unfold emitRun
  rw [emitGo_stops data e post bad hbad pre 0 hpre, List.range_eq_range']

/-- C9 witness: with three subscribers of which the second raises, exactly
    the first two are invoked (indices 0 and 1) and the error escapes. -/
theorem c9_emit_stops_at_raising_witness :
    emitRun [fun _ => none, fun _ => some "x", fun _ => none] (0 : Nat)
      = ([0, 1], some "x") := by
  have h := c9_emit_stops_at_raising (α := Nat) 0 "x" [fun _ => none] [fun _ => none]
    (fun _ => some "x") (by intro cb hcb; rw [List.mem_singleton] at hcb; rw [hcb])
    rfl
  simpa using h

/-- C9 counterexample: the claim says a raising subscriber does not prevent
    delivery to subsequent subscribers.  With two subscribers of which the
    first raises, only index 0 is invoked: the second subscriber never
    receives the event, and the error escapes to the caller of `emit`. -/
theorem c9_counterexample :
    emitRun [fun _ => some "boom", fun _ => none] (0 : Nat) = ([0], some "boom")
    ∧ 1 ∉ (emitRun [fun _ => some "boom", fun _ => none] (0 : Nat)).1 := by
  exact ⟨rfl, by decide⟩

/-- C10: in local mode, for a valid row index i, `removeRow(i)` removes the
    i-th row, and the selection set is remapped by dropping index i,
    decrementing every selected index above i and keeping those below, so
    every remaining selected index designates the same surviving row as
    before the removal. -/
theorem c10_remove_row_selection (st : Local.LState) (i : Int)
    (h0 : 0 ≤ i) (hlen : i < (st.originalData.length : Int)) :
    (Local.removeRow st i).originalData = st.originalData.eraseIdx i.toNat
    ∧ (Local.removeRow st i).selectedRows
      = (st.selectedRows.erase i.toNat).image (fun j => if i.toNat < j then j - 1 else j)
    ∧ (Local.removeRow st i).warns = st.warns
    ∧ ∀ j ∈ st.selectedRows, j ≠ i.toNat →
        (Local.removeRow st i).originalData[(if i.toNat < j then j - 1 else j)]?
          = st.originalData[j]? := by
  have hguard : ¬ (i < 0 ∨ (st.originalData.length : Int) ≤ i) := by omega
  unfold Local.removeRow
  rw [if_neg hguard]
  refine ⟨rfl, rfl, rfl, ?_⟩
  intro j hj hne
  simp only
  rw [List.getElem?_eraseIdx]
  by_cases hlt : i.toNat < j
  · rw [if_pos hlt, if_neg (by omega)]
    congr 1
    omega
  · rw [if_neg hlt, if_pos (by omega)]

/-- C10 witness: removing row 1 from the three-row instance with selection
    {0, 1, 2} leaves selection {0, 1} — index 0 untouched and old index 2
    renumbered to 1 — and the renumbered index still points at the same
    surviving row. -/
theorem c10_remove_row_selection_witness :
    (Local.removeRow stSel 1).selectedRows = {0, 1}
    ∧ (Local.removeRow stSel 1).originalData[1]? = stSel.originalData[2]? := by
  have h := c10_remove_row_selection stSel 1 (by decide) (by decide)
  constructor
  · rw [h.2.1]
    decide
  · have := h.2.2.2 2 (by decide) (by decide)
    simpa using this
